import Mathlib

/-!
Verification development for the winservice repository: a shallow embedding
of `TConsoleService` (TConsoleService.h) and of the logging framework
(logfmwk.h), with theorems checking the natural-language specification
against the embedded code.
-/

namespace WinService

/-! ### Win32 constants used by the source (values from winsvc.h / wincon.h) -/

def SERVICE_STOPPED : Nat := 1
def SERVICE_START_PENDING : Nat := 2
def SERVICE_STOP_PENDING : Nat := 3
def SERVICE_RUNNING : Nat := 4
def SERVICE_ACCEPT_STOP : Nat := 1
def SERVICE_CONTROL_STOP : Nat := 1
def SERVICE_CONTROL_PAUSE : Nat := 2
def SERVICE_CONTROL_CONTINUE : Nat := 3
def SERVICE_CONTROL_INTERROGATE : Nat := 4
def SERVICE_CONTROL_SHUTDOWN : Nat := 5
def SERVICE_CONTROL_DEVICEEVENT : Nat := 11
def SERVICE_CONTROL_HARDWAREPROFILECHANGE : Nat := 12
def SERVICE_CONTROL_POWEREVENT : Nat := 13
def SERVICE_CONTROL_SESSIONCHANGE : Nat := 14
def SERVICE_CONTROL_PRESHUTDOWN : Nat := 15
def NO_ERROR : Nat := 0
def S_OK : Nat := 0
def CTRL_C_EVENT : Nat := 0
def CTRL_BREAK_EVENT : Nat := 1
def CTRL_CLOSE_EVENT : Nat := 2
def CTRL_LOGOFF_EVENT : Nat := 5
def CTRL_SHUTDOWN_EVENT : Nat := 6

/-! ### TConsoleService state

`SERVICE_STATUS` keeps the fields of the Win32 struct that the source reads
or writes.  `ServiceData` is the mutable state of a `TConsoleService`
object: its `status_` member, the manual-reset quit event `hEventQuit_`
(modelled as the boolean "is signalled"), the debug flag, and — as an
observation of the calls the source makes to `::SetServiceStatus` — the
list of statuses reported to the service control manager. -/

structure SERVICE_STATUS where
  dwCurrentState : Nat
  dwControlsAccepted : Nat
  dwWin32ExitCode : Nat
  dwCheckPoint : Nat
  dwWaitHint : Nat
  deriving Repr, DecidableEq

structure ServiceData where
  status_ : SERVICE_STATUS
  eventQuit : Bool
  fDebugMode_ : Bool
  reports : List SERVICE_STATUS
  deriving Repr, DecidableEq

/-- State of a `TConsoleService` right after its constructor ran:
state `SERVICE_STOPPED`, no controls accepted, exit code 0, quit event
created unsignalled. -/
def initServiceData (debug : Bool) : ServiceData :=
  { status_ := { dwCurrentState := SERVICE_STOPPED, dwControlsAccepted := 0,
                 dwWin32ExitCode := 0, dwCheckPoint := 0, dwWaitHint := 0 },
    eventQuit := false, fDebugMode_ := debug, reports := [] }

/-- `TConsoleService::setServiceStatus`: stores the new state, recomputes
`dwControlsAccepted` (0 while `SERVICE_START_PENDING`, otherwise or-ed with
`SERVICE_ACCEPT_STOP`), and, when not in debug mode, reports the status to
the dispatcher via `::SetServiceStatus`. -/
def setServiceStatus (s : ServiceData) (dwState : Nat) : ServiceData :=
  let st : SERVICE_STATUS :=
    { s.status_ with
      dwCurrentState := dwState,
      dwControlsAccepted :=
        if dwState = SERVICE_START_PENDING then 0
        else s.status_.dwControlsAccepted ||| SERVICE_ACCEPT_STOP }
  { s with status_ := st,
           reports := if s.fDebugMode_ then s.reports else s.reports ++ [st] }

/-- `TConsoleService::onStop`: sets the state to `SERVICE_STOP_PENDING`,
then signals the quit event (`::SetEvent(hEventQuit_)`). -/
def onStop (s : ServiceData) : ServiceData :=
  let s := setServiceStatus s SERVICE_STOP_PENDING
  { s with eventQuit := true }

/-- `TConsoleService::serviceControlHandlerEx`: dispatches a control code to
its handler.  Every default handler other than `onStop` leaves the service
state untouched, and `dwRet` stays `NO_ERROR` on every path (the handlers
that return a `DWORD` all return `NO_ERROR` by default). -/
def serviceControlHandlerEx (s : ServiceData) (dwControl : Nat) :
    ServiceData × Nat :=
  if dwControl = SERVICE_CONTROL_STOP then (onStop s, NO_ERROR)
  else if dwControl = SERVICE_CONTROL_PAUSE then (s, NO_ERROR)
  else if dwControl = SERVICE_CONTROL_CONTINUE then (s, NO_ERROR)
  else if dwControl = SERVICE_CONTROL_INTERROGATE then (s, NO_ERROR)
  else if dwControl = SERVICE_CONTROL_PRESHUTDOWN then (s, NO_ERROR)
  else if dwControl = SERVICE_CONTROL_SHUTDOWN then (s, NO_ERROR)
  else if dwControl = SERVICE_CONTROL_DEVICEEVENT then (s, NO_ERROR)
  else if dwControl = SERVICE_CONTROL_HARDWAREPROFILECHANGE then (s, NO_ERROR)
  else if dwControl = SERVICE_CONTROL_SESSIONCHANGE then (s, NO_ERROR)
  else if dwControl = SERVICE_CONTROL_POWEREVENT then (s, NO_ERROR)
  else (s, NO_ERROR)

/-- `TConsoleService::consoleCtrlHandler`: in debug mode, Ctrl+C,
Ctrl+Break and console-shutdown signals are thunked to the service's STOP
control handler (`onStop`) and the handler returns `TRUE`; every other
console signal returns `FALSE` without touching the state. -/
def consoleCtrlHandler (s : ServiceData) (dwCtrlType : Nat) :
    ServiceData × Bool :=
  if dwCtrlType = CTRL_C_EVENT ∨ dwCtrlType = CTRL_BREAK_EVENT
      ∨ dwCtrlType = CTRL_SHUTDOWN_EVENT then
    (onStop s, true)
  else
    (s, false)

/-! ### Entry sequence: `serviceMain`, `run`, `start`

`run` is the default work body: it sets the state to `SERVICE_RUNNING` and
blocks on the quit event (`::WaitForSingleObject(hEventQuit_, INFINITE)`);
once the event is signalled it returns 0.  The blocking wait has no effect
on the service state, so the model is the state after `setServiceStatus`
paired with the returned exit code.  `serviceMain` and `start` are
parameterised by the work body so that derived-class overrides of `run`
are covered; the environment outcomes that the OS decides — success of
`::RegisterServiceCtrlHandlerEx`, success of
`::StartServiceCtrlDispatcherW` and the `::GetLastError` code of a failed
dispatcher registration — are passed in as parameters. -/

def runDefault (s : ServiceData) : ServiceData × Nat :=
  (setServiceStatus s SERVICE_RUNNING, 0)

/-- `TConsoleService::serviceMain`.  It first assigns
`status_.dwCurrentState = SERVICE_START_PENDING` directly; in debug mode it
installs the console ctrl handler (no state effect here; the handler itself
is `consoleCtrlHandler`), otherwise it registers the service control
handler and returns at once if that registration failed.  It then reports
`SERVICE_START_PENDING`, clears the exit-code bookkeeping, runs the work
body, stores the body's return value as `dwWin32ExitCode` and reports
`SERVICE_STOPPED`. -/
def serviceMain (body : ServiceData → ServiceData × Nat)
    (handlerRegOk : Bool) (s : ServiceData) : ServiceData :=
  let s := { s with status_ :=
    { s.status_ with dwCurrentState := SERVICE_START_PENDING } }
  if s.fDebugMode_ ∨ handlerRegOk then
    let s := setServiceStatus s SERVICE_START_PENDING
    let s := { s with status_ :=
      { s.status_ with dwWin32ExitCode := S_OK, dwCheckPoint := 0,
                       dwWaitHint := 0 } }
    let p := body s
    let s := { p.1 with status_ :=
      { p.1.status_ with dwWin32ExitCode := p.2 } }
    setServiceStatus s SERVICE_STOPPED
  else s

/-- `TConsoleService::start`: parses the command line for `/debug` (the
outcome is the `debugFlag` parameter), then either calls `serviceMain`
directly (debug mode) or hands control to
`::StartServiceCtrlDispatcherW`, which on success invokes `serviceMain`
and on failure makes `start` store `::GetLastError()` into
`dwWin32ExitCode`.  `start` returns `status_.dwWin32ExitCode`. -/
def start (body : ServiceData → ServiceData × Nat) (debugFlag : Bool)
    (dispatcherOk : Bool) (dispatcherErr : Nat) (handlerRegOk : Bool) :
    ServiceData × Nat :=
  let s := { initServiceData false with fDebugMode_ := debugFlag }
  if s.fDebugMode_ then
    let s := serviceMain body handlerRegOk s
    (s, s.status_.dwWin32ExitCode)
  else if dispatcherOk then
    let s := serviceMain body handlerRegOk s
    (s, s.status_.dwWin32ExitCode)
  else
    let s := { s with status_ :=
      { s.status_ with dwWin32ExitCode := dispatcherErr } }
    (s, s.status_.dwWin32ExitCode)

/-! ### Sequences of state changes and control deliveries (for the
`ControlsAcceptedSet` invariant) -/

/-- The `(m & SERVICE_ACCEPT_STOP) != 0` test: the accepted-controls mask
contains the Stop control. -/
def acceptsStop (m : Nat) : Prop := m &&& SERVICE_ACCEPT_STOP ≠ 0

instance (m : Nat) : Decidable (acceptsStop m) := by
  unfold acceptsStop; infer_instance

/-- One externally observable mutation of the service after construction:
either a `setServiceStatus` call or a control code delivered by the
dispatcher. -/
inductive SvcOp where
  | setState : Nat → SvcOp
  | control : Nat → SvcOp

def applyOp (s : ServiceData) : SvcOp → ServiceData
  | SvcOp.setState d => setServiceStatus s d
  | SvcOp.control c => (serviceControlHandlerEx s c).1

def runOps (s : ServiceData) (ops : List SvcOp) : ServiceData :=
  ops.foldl applyOp s

/-- The `ControlsAcceptedSet` invariant of the spec: the set is empty
whenever the state is `SERVICE_START_PENDING`, and in every other
non-terminal state (terminal = `SERVICE_STOPPED`) it contains at least the
Stop control. -/
def ControlsInv (s : ServiceData) : Prop :=
  (s.status_.dwCurrentState = SERVICE_START_PENDING →
    s.status_.dwControlsAccepted = 0) ∧
  (s.status_.dwCurrentState ≠ SERVICE_START_PENDING →
    s.status_.dwCurrentState ≠ SERVICE_STOPPED →
    acceptsStop s.status_.dwControlsAccepted)

/-! ### logfmwk.h: Logger / LogWriter

Wide strings are embedded as `List Char`.  The `Logger` object state keeps
`level_`, `lastmsgtime_` and — as the observation of the virtual
`actualwrite` calls the formatting core makes — the list of strings handed
to the sink, in order. -/

def MAX_LOG_MESSAGE_LEN : Nat := 4096
def MAX_TAG_LEN : Nat := 12

structure LoggerState where
  level_ : Int
  lastmsgtime_ : Nat
  sink : List (List Char)
  deriving Repr, DecidableEq

/-- `Logger::Logger()`: `lastmsgtime_(0)` and a build-profile dependent
default level (`LOG_LEVEL_DEBUG` in `_DEBUG` builds, `LOG_LEVEL_WARNING`
otherwise). -/
def initLogger (debugBuild : Bool) : LoggerState :=
  { level_ := if debugBuild then 10000 else 100, lastmsgtime_ := 0,
    sink := [] }

/-- A C `struct tm` (the fields `Logger::getTimeStamp` reads).
`tm_year` is years since 1900 and `tm_mon` is months since January,
in the range 0 to 11. -/
structure Tm where
  tm_year : Nat
  tm_mon : Nat
  tm_mday : Nat
  tm_hour : Nat
  tm_min : Nat
  tm_sec : Nat
  deriving Repr, DecidableEq

/-- Zero-padded decimal rendering, the effect of a `%0<w>d` conversion for
a non-negative argument. -/
def padNum (w n : Nat) : List Char :=
  let s := (toString n).data
  List.replicate (w - s.length) '0' ++ s

/-- `Logger::getTimeStamp`: renders the local time `t` and the
`_get_timezone` value `zone` (seconds, positive west of UTC) through
`swprintf_s(..., L"%04d/%02d/%02d %02d:%02d:%02d UTC%c%dmins", 1900+tm_year,
tm_mon, tm_mday, tm_hour, tm_min, tm_sec, zone >= 0 ? '-' : '+',
zonemins)` where `zonemins = abs(zone/60)`.  Note the source passes
`lnow.tm_mon` itself as the month argument. -/
def getTimeStamp (t : Tm) (zone : Int) : List Char :=
  let zonemins := Int.tdiv zone 60
  let zonemins := if zonemins < 0 then zonemins * (-1) else zonemins
  padNum 4 (1900 + t.tm_year) ++ '/' :: padNum 2 t.tm_mon
    ++ '/' :: padNum 2 t.tm_mday ++ ' ' :: padNum 2 t.tm_hour
    ++ ':' :: padNum 2 t.tm_min ++ ':' :: padNum 2 t.tm_sec
    ++ ' ' :: 'U' :: 'T' :: 'C' :: (if zone ≥ 0 then '-' else '+')
    :: (toString zonemins.toNat).data ++ 'm' :: 'i' :: 'n' :: 's' :: []

/-- Left-justified minimum-width field, the effect of `%-<w>s`. -/
def leftJustify (s : List Char) (w : Nat) : List Char :=
  s ++ List.replicate (w - s.length) ' '

/-- Right-justified minimum-width field, the effect of `%<w>d` for a
non-negative argument. -/
def rightJustify (s : List Char) (w : Nat) : List Char :=
  List.replicate (w - s.length) ' ' ++ s

/-- The record line `swprintf_s(finalmsg, ..., L"%-12s %4d %s", tag,
::GetCurrentThreadId(), msg)` of `Logger::writecomposed`. -/
def formatRecord (tag : List Char) (tid : Nat) (msg : List Char) :
    List Char :=
  leftJustify tag 12 ++ ' ' :: rightJustify (toString tid).data 4
    ++ ' ' :: msg

/-- `Logger::writecomposed`: rejects the message before taking the lock if
`level > getLevel()`; otherwise, under the lock, emits a date/time header
(followed by CRLF) whenever the current second `now` differs from
`lastmsgtime_`, updating the bucket, and then emits the formatted record.
The wall clock reading (`now`, the broken-down local time `tm`, the
timezone) and the calling thread id are parameters of the model. -/
def writecomposed (st : LoggerState) (now : Nat) (tm : Tm) (zone : Int)
    (tid : Nat) (level : Int) (tag msg : List Char) : LoggerState :=
  if level > st.level_ then st
  else
    let st :=
      if now ≠ st.lastmsgtime_ then
        { st with sink := st.sink ++ [getTimeStamp tm zone, ['\r', '\n']],
                  lastmsgtime_ := now }
      else st
    { st with sink := st.sink ++ [formatRecord tag tid msg] }

/-- The wide-character overload `Logger::write(int, const wchar_t*,
wchar_t const*)`: forwards directly to `writecomposed`. -/
def loggerWriteW (st : LoggerState) (now : Nat) (tm : Tm) (zone : Int)
    (tid : Nat) (level : Int) (tag msg : List Char) : LoggerState :=
  writecomposed st now tm zone tid level tag msg

/-- The narrow-character overload `Logger::write(int, const wchar_t*,
char const*)`: converts the message to UTF-16 with
`::MultiByteToWideChar` into a `MAX_LOG_MESSAGE_LEN+1` buffer (at most
`MAX_LOG_MESSAGE_LEN` characters are produced) and then forwards to
`writecomposed`.  The code-page conversion itself is the opaque parameter
`conv`. -/
def loggerWriteA (conv : List Char → List Char) (st : LoggerState)
    (now : Nat) (tm : Tm) (zone : Int) (tid : Nat) (level : Int)
    (tag msg : List Char) : LoggerState :=
  writecomposed st now tm zone tid level tag
    ((conv msg).take MAX_LOG_MESSAGE_LEN)

/-! ### LogWriter -/

/-- `wcscpy_s` with a destination of `destCap` elements: the source is
copied whole when it fits together with its terminator, otherwise the
invalid-parameter bounds-failure branch runs (modelled as `none`); there
is no silent truncation. -/
def wcscpy_s_bounded (destCap : Nat) (src : List Char) :
    Option (List Char) :=
  if src.length + 1 ≤ destCap then some src else none

/-- `LogWriter::LogWriter(const wchar_t*, Logger&)`: copies the tag with
`::wcscpy_s(szTag_, lpszTag)` into the `wchar_t szTag_[MAX_TAG_LEN+1]`
member. -/
def logWriterCtor (tag : List Char) : Option (List Char) :=
  wcscpy_s_bounded (MAX_TAG_LEN + 1) tag

/-- The number of characters `_vsnprintf_s(szMsg, _countof(szMsg)-1,
_TRUNCATE, ...)` can store in the `MAX_LOG_MESSAGE_LEN`-element message
buffer: the size argument is `MAX_LOG_MESSAGE_LEN - 1`, and with
`_TRUNCATE` at most size-1 characters plus the terminator are written. -/
def VSN_TRUNC_LEN : Nat := MAX_LOG_MESSAGE_LEN - 2

/-- `LogWriter::_write(int, wchar_t const*, va_list&)`: renders the format
string against the arguments (the full rendition is the parameter
`rendered`), truncating into the bounded buffer, then forwards the buffer
to `logger_.write(level, szTag_, szMsg)` (wide overload). -/
def logWriterWriteW (st : LoggerState) (now : Nat) (tm : Tm) (zone : Int)
    (tid : Nat) (tag : List Char) (level : Int) (rendered : List Char) :
    LoggerState :=
  loggerWriteW st now tm zone tid level tag (rendered.take VSN_TRUNC_LEN)

/-- `LogWriter::_write(int, char const*, va_list&)`: same with the narrow
`_vsnprintf_s` and the narrow `Logger::write` overload. -/
def logWriterWriteA (conv : List Char → List Char) (st : LoggerState)
    (now : Nat) (tm : Tm) (zone : Int) (tid : Nat) (tag : List Char)
    (level : Int) (rendered : List Char) : LoggerState :=
  loggerWriteA conv st now tm zone tid level tag
    (rendered.take VSN_TRUNC_LEN)

/-! ### FileLogger rollover

The on-disk rollover chain of one log file is modelled as the function
from indices to the content of `name_<index><ext>` (`none` = the file does
not exist) together with the content of the active file `name<ext>`.
`::_wrename` on Windows fails, leaving both files alone, when the source
is missing or the destination already exists; otherwise it moves the
content. -/

/-- A successful or failed `::_wrename(name_<src><ext>, name_<dst><ext>)`
step on the indexed chain. -/
def renameStep {α : Type} (fs : Nat → Option α) (src dst : Nat) :
    Nat → Option α :=
  match fs src, fs dst with
  | some c, none => fun j => if j = dst then some c else
      if j = src then none else fs j
  | _, _ => fs

/-- `FileLogger::backup_rolledfile`: if `name_<index><ext>` exists, first
recurse to back up an existing `name_<index+1><ext>`, then rename
`name_<index><ext>` to `name_<index+1><ext>`.  The C++ recursion is
unbounded; the model carries fuel, and the theorems supply enough fuel for
the chain at hand. -/
def backup_rolledfile {α : Type} :
    Nat → (Nat → Option α) → Nat → (Nat → Option α)
  | 0, fs, _ => fs
  | Nat.succ fuel, fs, index =>
    match fs index with
    | none => fs
    | some _ =>
      match fs (index + 1) with
      | some _ => renameStep (backup_rolledfile fuel fs (index + 1))
          index (index + 1)
      | none => renameStep fs index (index + 1)

structure DiskState (α : Type) where
  active : Option α
  chain : Nat → Option α

/-- `FileLogger::rollover`: backs up the existing rollup files starting at
index 1, then renames the active file to `name_1<ext>`. -/
def rollover {α : Type} (fuel : Nat) (d : DiskState α) : DiskState α :=
  let ch := backup_rolledfile fuel d.chain 1
  match d.active, ch 1 with
  | some c, none =>
    { active := none, chain := fun j => if j = 1 then some c else ch j }
  | _, _ => { active := d.active, chain := ch }

/-- A concrete post-construction service that has reached
`SERVICE_RUNNING` (used by witnesses). -/
def runningSvc : ServiceData :=
  setServiceStatus (initServiceData false) SERVICE_RUNNING

/-- A concrete two-member rollover chain `name_1`, `name_2` (used by the
rollover witness; contents are numbered for recognisability). -/
def demoChain : Nat → Option Nat :=
  fun j => if j = 1 then some 10 else if j = 2 then some 20 else none

/-- A disk with the two-member chain plus an existing active file. -/
def demoDisk : DiskState Nat := { active := some 99, chain := demoChain }

/-! ### Helper lemmas -/

lemma acceptsStop_lor (m : Nat) :
    acceptsStop (m ||| SERVICE_ACCEPT_STOP) := by
  have h : (m ||| 1).testBit 0 = true := by
    rw [Nat.testBit_lor]; simp
  have h2 : (m ||| 1) % 2 = 1 :=
    Nat.mod_two_eq_one_iff_testBit_zero.mpr h
  unfold acceptsStop SERVICE_ACCEPT_STOP
  simp [Nat.and_one_is_mod, h2]

lemma lor_stop_idem (m : Nat) :
    (m ||| SERVICE_ACCEPT_STOP) ||| SERVICE_ACCEPT_STOP
      = m ||| SERVICE_ACCEPT_STOP := by
  have h : (1 ||| 1 : Nat) = 1 := by decide
  unfold SERVICE_ACCEPT_STOP
  rw [Nat.lor_assoc, h]

/-- Every branch of the control dispatcher other than Stop leaves the
state unchanged, and the returned code is `NO_ERROR` on every path. -/
lemma serviceControlHandlerEx_eq (s : ServiceData) (c : Nat) :
    serviceControlHandlerEx s c =
      (if c = SERVICE_CONTROL_STOP then onStop s else s, NO_ERROR) := by
  unfold serviceControlHandlerEx
  by_cases h : c = SERVICE_CONTROL_STOP
  · simp [h]
  · simp only [if_neg h]
    repeat' split
    all_goals rfl

/-! ### C1 -/

/-- C1: delivering the Stop control while the state is `SERVICE_RUNNING`
invokes `onStop`, which sets the state to `SERVICE_STOP_PENDING` and
signals the quit event; delivering Stop again is idempotent — the status
(state, accepted controls, exit code) is unchanged, the already-signalled
quit event stays signalled with no further transition, and both deliveries
return `NO_ERROR`. -/
theorem stop_control_idempotent (s : ServiceData)
    (hrun : s.status_.dwCurrentState = SERVICE_RUNNING)
    (hq : s.eventQuit = false) :
    (serviceControlHandlerEx s SERVICE_CONTROL_STOP).1.status_.dwCurrentState
        = SERVICE_STOP_PENDING ∧
    (serviceControlHandlerEx s SERVICE_CONTROL_STOP).1.eventQuit = true ∧
    (serviceControlHandlerEx s SERVICE_CONTROL_STOP).2 = NO_ERROR ∧
    (serviceControlHandlerEx
        (serviceControlHandlerEx s SERVICE_CONTROL_STOP).1
        SERVICE_CONTROL_STOP).1.status_ =
      (serviceControlHandlerEx s SERVICE_CONTROL_STOP).1.status_ ∧
    (serviceControlHandlerEx
        (serviceControlHandlerEx s SERVICE_CONTROL_STOP).1
        SERVICE_CONTROL_STOP).1.eventQuit =
      (serviceControlHandlerEx s SERVICE_CONTROL_STOP).1.eventQuit ∧
    (serviceControlHandlerEx
        (serviceControlHandlerEx s SERVICE_CONTROL_STOP).1
        SERVICE_CONTROL_STOP).2 = NO_ERROR := by
  simp only [serviceControlHandlerEx_eq, if_pos rfl]
  simp [onStop, setServiceStatus, SERVICE_STOP_PENDING,
    SERVICE_START_PENDING, lor_stop_idem]

/-- C1 witness: the theorem applied to a concrete running service. -/
theorem stop_control_idempotent_witness :
    (serviceControlHandlerEx runningSvc SERVICE_CONTROL_STOP).1.status_.dwCurrentState
        = SERVICE_STOP_PENDING ∧
    (serviceControlHandlerEx runningSvc SERVICE_CONTROL_STOP).1.eventQuit
        = true ∧
    (serviceControlHandlerEx
        (serviceControlHandlerEx runningSvc SERVICE_CONTROL_STOP).1
        SERVICE_CONTROL_STOP).1.status_ =
      (serviceControlHandlerEx runningSvc SERVICE_CONTROL_STOP).1.status_ :=
  ⟨(stop_control_idempotent runningSvc (by decide) (by decide)).1,
   (stop_control_idempotent runningSvc (by decide) (by decide)).2.1,
   (stop_control_idempotent runningSvc (by decide) (by decide)).2.2.2.1⟩

/-! ### C2 -/

/-- C2: in debug mode, the console signals Ctrl+C, Ctrl+Break and
console-shutdown all invoke the same `onStop` callback as a service-mode
Stop control — producing the identical resulting state (state
`SERVICE_STOP_PENDING`, quit event signalled) — and the handler returns
`TRUE`; every other console signal makes the handler return `FALSE` and
change nothing. -/
theorem console_signal_eq_stop (s : ServiceData) (sig : Nat) :
    ((sig = CTRL_C_EVENT ∨ sig = CTRL_BREAK_EVENT
        ∨ sig = CTRL_SHUTDOWN_EVENT) →
      consoleCtrlHandler s sig = (onStop s, true) ∧
      (consoleCtrlHandler s sig).1 =
        (serviceControlHandlerEx s SERVICE_CONTROL_STOP).1 ∧
      (consoleCtrlHandler s sig).1.status_.dwCurrentState
        = SERVICE_STOP_PENDING ∧
      (consoleCtrlHandler s sig).1.eventQuit = true) ∧
    (¬(sig = CTRL_C_EVENT ∨ sig = CTRL_BREAK_EVENT
        ∨ sig = CTRL_SHUTDOWN_EVENT) →
      consoleCtrlHandler s sig = (s, false)) := by
  constructor
  · intro h
    refine ⟨by simp [consoleCtrlHandler, h], ?_, ?_, ?_⟩
    · simp [consoleCtrlHandler, h, serviceControlHandlerEx_eq]
    · simp [consoleCtrlHandler, h, onStop, setServiceStatus,
        SERVICE_STOP_PENDING, SERVICE_START_PENDING]
    · simp [consoleCtrlHandler, h, onStop]
  · intro h
    simp [consoleCtrlHandler, h]

/-- C2 witness: Ctrl+C behaves as the Stop control on a concrete running
service; a close (non-listed) signal changes nothing. -/
theorem console_signal_eq_stop_witness :
    consoleCtrlHandler runningSvc CTRL_C_EVENT = (onStop runningSvc, true) ∧
    (consoleCtrlHandler runningSvc CTRL_C_EVENT).1 =
      (serviceControlHandlerEx runningSvc SERVICE_CONTROL_STOP).1 ∧
    consoleCtrlHandler runningSvc CTRL_CLOSE_EVENT = (runningSvc, false) :=
  ⟨((console_signal_eq_stop runningSvc CTRL_C_EVENT).1 (Or.inl rfl)).1,
   ((console_signal_eq_stop runningSvc CTRL_C_EVENT).1 (Or.inl rfl)).2.1,
   (console_signal_eq_stop runningSvc CTRL_CLOSE_EVENT).2 (by decide)⟩

/-! ### C3 -/

lemma applyOp_inv (s : ServiceData) (op : SvcOp) (h : ControlsInv s) :
    ControlsInv (applyOp s op) := by
  cases op with
  | setState d =>
    by_cases hd : d = SERVICE_START_PENDING
    · simp [applyOp, setServiceStatus, ControlsInv, hd]
    · simp [applyOp, setServiceStatus, ControlsInv, hd, acceptsStop_lor]
  | control c =>
    rw [applyOp, serviceControlHandlerEx_eq]
    by_cases hc : c = SERVICE_CONTROL_STOP
    · simp only [hc, if_pos rfl]
      simp [ControlsInv, onStop, setServiceStatus, SERVICE_STOP_PENDING,
        SERVICE_START_PENDING, acceptsStop_lor]
    · simpa [hc] using h

/-- C3: for every sequence of `setServiceStatus` calls and delivered
control codes after construction, the `ControlsAcceptedSet` invariant
holds — the set is empty whenever the state is `SERVICE_START_PENDING`,
and in every other non-terminal state it contains at least the Stop
control.  Moreover the set is recomputed by every `setServiceStatus`
call, and control dispatch mutates the status only through
`setServiceStatus` (on Stop) or not at all. -/
theorem controls_accepted_invariant (debug : Bool) (ops : List SvcOp) :
    ControlsInv (runOps (initServiceData debug) ops) ∧
    (∀ (s : ServiceData) (d : Nat),
      (setServiceStatus s d).status_.dwControlsAccepted =
        if d = SERVICE_START_PENDING then 0
        else s.status_.dwControlsAccepted ||| SERVICE_ACCEPT_STOP) ∧
    (∀ (s : ServiceData) (c : Nat),
      (serviceControlHandlerEx s c).1.status_ =
        if c = SERVICE_CONTROL_STOP
        then (setServiceStatus s SERVICE_STOP_PENDING).status_
        else s.status_) := by
  refine ⟨?_, ?_, ?_⟩
  · have hind : ∀ (l : List SvcOp) (s : ServiceData),
        ControlsInv s → ControlsInv (runOps s l) := by
      intro l
      induction l with
      | nil => intro s h; exact h
      | cons op l ih =>
        intro s h
        exact ih _ (applyOp_inv s op h)
    apply hind
    simp [ControlsInv, initServiceData, SERVICE_STOPPED,
      SERVICE_START_PENDING]
  · intro s d
    rfl
  · intro s c
    rw [serviceControlHandlerEx_eq]
    by_cases hc : c = SERVICE_CONTROL_STOP
    · simp [hc, onStop]
    · simp [hc]

/-- C3 witness: after construction followed by `setServiceStatus
SERVICE_RUNNING`, the accepted-controls set contains Stop. -/
theorem controls_accepted_invariant_witness :
    acceptsStop
      ((runOps (initServiceData false)
          [SvcOp.setState SERVICE_RUNNING]).status_.dwControlsAccepted) :=
  (controls_accepted_invariant false
      [SvcOp.setState SERVICE_RUNNING]).1.2 (by decide) (by decide)

/-! ### C4 and C9 -/

/-- In service mode, when `::RegisterServiceCtrlHandlerEx` fails,
`serviceMain` returns right away: the only effect is the direct
`status_.dwCurrentState = SERVICE_START_PENDING` assignment at its top. -/
lemma serviceMain_noreg (body : ServiceData → ServiceData × Nat)
    (s : ServiceData) (h : s.fDebugMode_ = false) :
    serviceMain body false s =
      { s with status_ :=
        { s.status_ with dwCurrentState := SERVICE_START_PENDING } } := by
  unfold serviceMain
  rw [if_neg]
  simp [h]

/-- When the entry sequence does reach the work body (debug mode, or the
control handler registered), the exit code it stores is the body's return
value. -/
lemma serviceMain_exit_run (body : ServiceData → ServiceData × Nat)
    (hOk : Bool) (s : ServiceData) (r : Nat)
    (hr : ∀ t, (body t).2 = r)
    (h : s.fDebugMode_ = true ∨ hOk = true) :
    (serviceMain body hOk s).status_.dwWin32ExitCode = r := by
  unfold serviceMain
  rw [if_pos (by simpa using h)]
  simp [setServiceStatus, SERVICE_STOPPED, SERVICE_START_PENDING, hr]

/-- C4: `start` is total (the model is a function) and its return value is
the `::GetLastError` code when service-mode dispatcher registration
fails, and otherwise the exit code the entry sequence left in
`dwWin32ExitCode` — which equals the work body's return value whenever the
body runs, and equals 0 for the default `run` implementation. -/
theorem start_exit_code (body : ServiceData → ServiceData × Nat)
    (dbg dispOk hOk : Bool) (err r : Nat) :
    (dbg = false → dispOk = false →
      (start body dbg dispOk err hOk).2 = err) ∧
    ((dbg = true ∨ dispOk = true) →
      (start body dbg dispOk err hOk).2 =
        (serviceMain body hOk
          { initServiceData false with
              fDebugMode_ := dbg }).status_.dwWin32ExitCode) ∧
    ((∀ t, (body t).2 = r) → (dbg = true ∨ hOk = true) →
      (dbg = true ∨ dispOk = true) →
      (start body dbg dispOk err hOk).2 = r) ∧
    ((dbg = true ∨ dispOk = true) →
      (start runDefault dbg dispOk err hOk).2 = 0) := by
  refine ⟨?_, ?_, ?_, ?_⟩
  · intro h1 h2
    subst h1; subst h2
    simp [start, initServiceData]
  · intro h
    cases dbg with
    | true => simp [start]
    | false =>
      rcases h with h | h
      · exact absurd h (by decide)
      · subst h; simp [start]
  · intro hr hbody hdisp
    cases dbg with
    | true =>
      have : (start body true dispOk err hOk).2 =
          (serviceMain body hOk
            { initServiceData false with
                fDebugMode_ := true }).status_.dwWin32ExitCode := by
        simp [start]
      rw [this]
      exact serviceMain_exit_run body hOk _ r hr (Or.inl rfl)
    | false =>
      have hok : hOk = true := by tauto
      have hdo : dispOk = true := by tauto
      subst hok; subst hdo
      have : (start body false true err true).2 =
          (serviceMain body true
            { initServiceData false with
                fDebugMode_ := false }).status_.dwWin32ExitCode := by
        simp [start]
      rw [this]
      exact serviceMain_exit_run body true _ r hr (Or.inr rfl)
  · intro h
    have hr : ∀ t, (runDefault t).2 = 0 := fun t => rfl
    cases dbg with
    | true =>
      have : (start runDefault true dispOk err hOk).2 =
          (serviceMain runDefault hOk
            { initServiceData false with
                fDebugMode_ := true }).status_.dwWin32ExitCode := by
        simp [start]
      rw [this]
      exact serviceMain_exit_run runDefault hOk _ 0 hr (Or.inl rfl)
    | false =>
      have hdo : dispOk = true := by tauto
      subst hdo
      cases hOk with
      | true =>
        have : (start runDefault false true err true).2 =
            (serviceMain runDefault true
              { initServiceData false with
                  fDebugMode_ := false }).status_.dwWin32ExitCode := by
          simp [start]
        rw [this]
        exact serviceMain_exit_run runDefault true _ 0 hr (Or.inr rfl)
      | false =>
        have : (start runDefault false true err false).2 =
            (serviceMain runDefault false
              { initServiceData false with
                  fDebugMode_ := false }).status_.dwWin32ExitCode := by
          simp [start]
        rw [this, serviceMain_noreg runDefault _ rfl]
        rfl

/-- C4 witness: concrete runs of `start` — dispatcher failure returns the
error code 1063; a debug-mode run with the default body returns 0. -/
theorem start_exit_code_witness :
    (start runDefault false false 1063 true).2 = 1063 ∧
    (start runDefault true true 1063 true).2 = 0 :=
  ⟨(start_exit_code runDefault false false true 1063 0).1 rfl rfl,
   (start_exit_code runDefault true true true 1063 0).2.2.2 (Or.inl rfl)⟩

/-- C9: in service mode, when control-handler registration fails the entry
sequence aborts before any work runs: its whole effect is the direct
`SERVICE_START_PENDING` assignment — the state never reaches
`SERVICE_RUNNING`, nothing is reported to the dispatcher, the exit code
is untouched, and the result does not depend on the work body (`run` is
never invoked). -/
theorem serviceMain_reg_failure_aborts
    (body altBody : ServiceData → ServiceData × Nat) (s : ServiceData)
    (h : s.fDebugMode_ = false) :
    serviceMain body false s =
      { s with status_ :=
        { s.status_ with dwCurrentState := SERVICE_START_PENDING } } ∧
    (serviceMain body false s).status_.dwCurrentState ≠ SERVICE_RUNNING ∧
    (serviceMain body false s).reports = s.reports ∧
    (serviceMain body false s).status_.dwWin32ExitCode =
      s.status_.dwWin32ExitCode ∧
    serviceMain body false s = serviceMain altBody false s := by
  have hb := serviceMain_noreg body s h
  have ha := serviceMain_noreg altBody s h
  refine ⟨hb, ?_, ?_, ?_, ?_⟩
  · rw [hb]; simp [SERVICE_START_PENDING, SERVICE_RUNNING]
  · rw [hb]
  · rw [hb]
  · rw [hb, ha]

/-- C9 witness: with handler registration failed, a service whose work
body would return 7 behaves exactly as one whose body returns 0 — neither
body runs. -/
theorem serviceMain_reg_failure_aborts_witness :
    serviceMain (fun t => (t, 7)) false (initServiceData false) =
      serviceMain runDefault false (initServiceData false) ∧
    (serviceMain (fun t => (t, 7)) false
        (initServiceData false)).status_.dwCurrentState ≠ SERVICE_RUNNING :=
  ⟨(serviceMain_reg_failure_aborts (fun t => (t, 7)) runDefault
      (initServiceData false) rfl).2.2.2.2,
   (serviceMain_reg_failure_aborts (fun t => (t, 7)) runDefault
      (initServiceData false) rfl).2.1⟩

/-! ### C6 -/

/-- C6 (code evidence): `getTimeStamp` renders `tm_mon` itself as the
month field.  `struct tm` months are 0-based, so the local time
2026-01-15 10:30:45 (tm_year 126, tm_mon 0) in the UTC zone produces the
header `2026/00/15 10:30:45 UTC-0mins` — month `00`, outside the
documented `01`–`12` calendar range (every header is one month behind,
January printing `00` and December `11`). -/
theorem getTimeStamp_month_off_by_one :
    getTimeStamp { tm_year := 126, tm_mon := 0, tm_mday := 15,
                   tm_hour := 10, tm_min := 30, tm_sec := 45 } 0 =
      "2026/00/15 10:30:45 UTC-0mins".data := by
  decide

/-! ### C7 -/

/-- C7: a `Logger::write` call whose level is strictly above the current
threshold returns with the logger state completely unchanged — the sink
receives zero calls and the last-emitted timestamp bucket keeps its value
— for both the wide-character and the narrow-character overload. -/
theorem write_fast_reject (conv : List Char → List Char)
    (st : LoggerState) (now : Nat) (tm : Tm) (zone : Int) (tid : Nat)
    (level : Int) (tag msg : List Char)
    (h : st.level_ < level) :
    loggerWriteW st now tm zone tid level tag msg = st ∧
    loggerWriteA conv st now tm zone tid level tag msg = st ∧
    (loggerWriteW st now tm zone tid level tag msg).sink = st.sink ∧
    (loggerWriteA conv st now tm zone tid level tag msg).sink = st.sink ∧
    (loggerWriteW st now tm zone tid level tag msg).lastmsgtime_ =
      st.lastmsgtime_ ∧
    (loggerWriteA conv st now tm zone tid level tag msg).lastmsgtime_ =
      st.lastmsgtime_ := by
  have hw : ∀ m, writecomposed st now tm zone tid level tag m = st := by
    intro m
    unfold writecomposed
    rw [if_pos h]
  simp [loggerWriteW, loggerWriteA, hw]

/-- C7 witness: a level-1000 message against a release-build threshold of
100 leaves a concrete logger state untouched on both overloads. -/
theorem write_fast_reject_witness :
    loggerWriteW (initLogger false) 5
      { tm_year := 126, tm_mon := 0, tm_mday := 15, tm_hour := 10,
        tm_min := 30, tm_sec := 45 } 0 7 1000 "SVC".data "hello".data =
      initLogger false ∧
    loggerWriteA id (initLogger false) 5
      { tm_year := 126, tm_mon := 0, tm_mday := 15, tm_hour := 10,
        tm_min := 30, tm_sec := 45 } 0 7 1000 "SVC".data "hello".data =
      initLogger false :=
  ⟨(write_fast_reject id (initLogger false) 5
      { tm_year := 126, tm_mon := 0, tm_mday := 15, tm_hour := 10,
        tm_min := 30, tm_sec := 45 } 0 7 1000 "SVC".data "hello".data
      (by decide)).1,
   (write_fast_reject id (initLogger false) 5
      { tm_year := 126, tm_mon := 0, tm_mday := 15, tm_hour := 10,
        tm_min := 30, tm_sec := 45 } 0 7 1000 "SVC".data "hello".data
      (by decide)).2.1⟩

/-! ### C8 -/

/-- C8: `LogWriter::_write` renders into the fixed message buffer with
guaranteed truncation — the stored text is at most `VSN_TRUNC_LEN`
characters (strictly inside the `MAX_LOG_MESSAGE_LEN` buffer), it is the
deterministic cut (a prefix) of the full rendition, it equals the full
rendition whenever that fits — and the possibly truncated message is still
forwarded to the Logger (reaching the sink when the level passes the
threshold), for both the char and the wchar_t variant. -/
theorem logwriter_write_truncates (conv : List Char → List Char)
    (st : LoggerState) (now : Nat) (tm : Tm) (zone : Int) (tid : Nat)
    (tag : List Char) (level : Int) (rendered : List Char) :
    (rendered.take VSN_TRUNC_LEN).length ≤ VSN_TRUNC_LEN ∧
    VSN_TRUNC_LEN < MAX_LOG_MESSAGE_LEN ∧
    rendered.take VSN_TRUNC_LEN ++ rendered.drop VSN_TRUNC_LEN
      = rendered ∧
    (rendered.length ≤ VSN_TRUNC_LEN →
      rendered.take VSN_TRUNC_LEN = rendered) ∧
    (level ≤ st.level_ →
      (logWriterWriteW st now tm zone tid tag level
          rendered).sink.getLast? =
        some (formatRecord tag tid (rendered.take VSN_TRUNC_LEN)) ∧
      (logWriterWriteA conv st now tm zone tid tag level
          rendered).sink.getLast? =
        some (formatRecord tag tid
          ((conv (rendered.take VSN_TRUNC_LEN)).take
            MAX_LOG_MESSAGE_LEN))) := by
  refine ⟨?_, ?_, ?_, ?_, ?_⟩
  · rw [List.length_take]
    exact Nat.min_le_left _ _
  · decide
  · exact List.take_append_drop _ _
  · intro h
    exact List.take_of_length_le h
  · intro h
    have hno : ¬ (level > st.level_) := not_lt.mpr h
    constructor
    · unfold logWriterWriteW loggerWriteW writecomposed
      rw [if_neg hno]
      split
      all_goals simp
    · unfold logWriterWriteA loggerWriteA writecomposed
      rw [if_neg hno]
      split
      all_goals simp

/-- C8 witness: a short message passes through unclipped and reaches the
sink as the last formatted record. -/
theorem logwriter_write_truncates_witness :
    "abc".data.take VSN_TRUNC_LEN = "abc".data ∧
    (logWriterWriteW (initLogger false) 5
        { tm_year := 126, tm_mon := 0, tm_mday := 15, tm_hour := 10,
          tm_min := 30, tm_sec := 45 } 0 7 "SVC".data 10
        "abc".data).sink.getLast? =
      some (formatRecord "SVC".data 7 ("abc".data.take VSN_TRUNC_LEN)) :=
  ⟨(logwriter_write_truncates id (initLogger false) 5
      { tm_year := 126, tm_mon := 0, tm_mday := 15, tm_hour := 10,
        tm_min := 30, tm_sec := 45 } 0 7 "SVC".data 10
      "abc".data).2.2.2.1 (by decide),
   ((logwriter_write_truncates id (initLogger false) 5
      { tm_year := 126, tm_mon := 0, tm_mday := 15, tm_hour := 10,
        tm_min := 30, tm_sec := 45 } 0 7 "SVC".data 10
      "abc".data).2.2.2.2 (by decide)).1⟩

/-! ### C10 -/

/-- C10: the `LogWriter` constructor stores a tag of at most
`MAX_TAG_LEN` characters intact in the `MAX_TAG_LEN+1`-element buffer,
and for any longer tag the bounded copy reaches its bounds-failure branch
instead of silently truncating. -/
theorem logwriter_tag_bounds (tag : List Char) :
    (tag.length ≤ MAX_TAG_LEN → logWriterCtor tag = some tag) ∧
    (MAX_TAG_LEN < tag.length → logWriterCtor tag = none) := by
  constructor
  · intro h
    unfold logWriterCtor wcscpy_s_bounded
    rw [if_pos (by unfold MAX_TAG_LEN at h ⊢; omega)]
  · intro h
    unfold logWriterCtor wcscpy_s_bounded
    rw [if_neg (by unfold MAX_TAG_LEN at h ⊢; omega)]

/-- C10 witness: a 12-character tag is stored intact; a 13-character tag
hits the bounds-failure branch. -/
theorem logwriter_tag_bounds_witness :
    logWriterCtor "ServiceMain1".data = some "ServiceMain1".data ∧
    logWriterCtor "ServiceMain13".data = none :=
  ⟨(logwriter_tag_bounds "ServiceMain1".data).1 (by decide),
   (logwriter_tag_bounds "ServiceMain13".data).2 (by decide)⟩

/-! ### C5 -/

lemma renameStep_spec {α : Type} (fs : Nat → Option α) (i : Nat) (c : α)
    (hsrc : fs i = some c) (hdst : fs (i + 1) = none) (j : Nat) :
    renameStep fs i (i + 1) j =
      if j = i + 1 then some c else if j = i then none else fs j := by
  simp only [renameStep, hsrc, hdst]

/-- Characterisation of `backup_rolledfile` on a contiguous chain: with
enough fuel, starting at index `i` it leaves indices below `i` alone,
vacates index `i`, and moves every member from `i` upward one index up. -/
lemma backup_rolledfile_spec {α : Type} (k : Nat) (ch : Nat → Option α)
    (hsome : ∀ j, 1 ≤ j → j ≤ k → (ch j).isSome = true)
    (hnone : ∀ j, k < j → ch j = none) :
    ∀ (fuel i : Nat), 1 ≤ i → k + 1 - i ≤ fuel → ∀ j,
      backup_rolledfile fuel ch i j =
        if j < i then ch j else if j = i then none else ch (j - 1) := by
  intro fuel
  induction fuel with
  | zero =>
    intro i hi hf j
    have hik : k < i := by omega
    have hchi : ch i = none := hnone i hik
    simp only [backup_rolledfile]
    rcases lt_trichotomy j i with h | h | h
    · rw [if_pos h]
    · subst h
      rw [if_neg (lt_irrefl j), if_pos rfl, hchi]
    · rw [if_neg (by omega), if_neg (by omega),
        hnone j (by omega), hnone (j - 1) (by omega)]
  | succ fuel ih =>
    intro i hi hf j
    cases hchi : ch i with
    | none =>
      have hik : k < i := by
        by_contra hle
        push_neg at hle
        have hs := hsome i hi hle
        rw [hchi] at hs
        simp at hs
      simp only [backup_rolledfile, hchi]
      rcases lt_trichotomy j i with h | h | h
      · rw [if_pos h]
      · subst h
        rw [if_neg (lt_irrefl j), if_pos rfl, hchi]
      · rw [if_neg (by omega), if_neg (by omega),
          hnone j (by omega), hnone (j - 1) (by omega)]
    | some c =>
      cases hchi1 : ch (i + 1) with
      | some c1 =>
        have hspec := ih (i + 1) (by omega) (by omega)
        simp only [backup_rolledfile, hchi, hchi1]
        have hsrc : backup_rolledfile fuel ch (i + 1) i = some c := by
          rw [hspec i, if_pos (by omega)]
          exact hchi
        have hdst : backup_rolledfile fuel ch (i + 1) (i + 1) = none := by
          rw [hspec (i + 1), if_neg (lt_irrefl (i + 1)), if_pos rfl]
        rw [renameStep_spec _ i c hsrc hdst j]
        by_cases hj1 : j = i + 1
        · subst hj1
          rw [if_pos rfl, if_neg (by omega), if_neg (by omega)]
          have : i + 1 - 1 = i := by omega
          rw [this, hchi]
        · rw [if_neg hj1]
          by_cases hj2 : j = i
          · subst hj2
            rw [if_pos rfl, if_neg (lt_irrefl j), if_pos rfl]
          · rw [if_neg hj2, hspec j]
            by_cases hlt : j < i
            · rw [if_pos (by omega), if_pos hlt]
            · rw [if_neg (by omega), if_neg hj1, if_neg hlt, if_neg hj2]
      | none =>
        have hik1 : k < i + 1 := by
          by_contra hle
          push_neg at hle
          have hs := hsome (i + 1) (by omega) hle
          rw [hchi1] at hs
          simp at hs
        simp only [backup_rolledfile, hchi, hchi1]
        rw [renameStep_spec ch i c hchi hchi1 j]
        by_cases hj1 : j = i + 1
        · subst hj1
          rw [if_pos rfl, if_neg (by omega), if_neg (by omega)]
          have : i + 1 - 1 = i := by omega
          rw [this, hchi]
        · rw [if_neg hj1]
          by_cases hj2 : j = i
          · subst hj2
            rw [if_pos rfl, if_neg (lt_irrefl j), if_pos rfl]
          · rw [if_neg hj2]
            by_cases hlt : j < i
            · rw [if_pos hlt]
            · rw [if_neg hlt, if_neg hj2,
                hnone j (by omega), hnone (j - 1) (by omega)]

/-- C5: rolling over a contiguous chain `name_1 … name_k` plus an existing
active file shifts every member at index `n` to index `n + 1` with its
content intact before anything moves into that index (no destination is
overwritten — the moves are modelled as fail-if-destination-exists
renames, and all succeed), then moves the previous active file to index 1;
afterwards the chain is contiguous from 1 to `k + 1`. -/
theorem rollover_shifts_chain {α : Type} (k fuel : Nat) (c : Nat → α)
    (a : α) (d : DiskState α)
    (hact : d.active = some a)
    (hchain : ∀ j, 1 ≤ j → j ≤ k → d.chain j = some (c j))
    (hempty : ∀ j, k < j → d.chain j = none)
    (hfuel : k ≤ fuel) :
    (rollover fuel d).active = none ∧
    (rollover fuel d).chain 1 = some a ∧
    (∀ j, 1 ≤ j → j ≤ k → (rollover fuel d).chain (j + 1) = some (c j)) ∧
    (∀ j, k + 1 < j → (rollover fuel d).chain j = none) := by
  have hsome : ∀ j, 1 ≤ j → j ≤ k → (d.chain j).isSome = true := by
    intro j h1 h2
    rw [hchain j h1 h2]
    rfl
  have hspec := backup_rolledfile_spec k d.chain hsome hempty fuel 1
    (by omega) (by omega)
  have hch1 : backup_rolledfile fuel d.chain 1 1 = none := by
    rw [hspec 1, if_neg (lt_irrefl 1), if_pos rfl]
  simp only [rollover, hact, hch1]
  refine ⟨by trivial, by simp, ?_, ?_⟩
  · intro j h1 h2
    have hne : j + 1 ≠ 1 := by omega
    simp only [hne, if_false]
    rw [hspec (j + 1), if_neg (by omega), if_neg hne]
    have : j + 1 - 1 = j := by omega
    rw [this]
    exact hchain j h1 h2
  · intro j hj
    have hne : j ≠ 1 := by omega
    simp only [hne, if_false]
    rw [hspec j, if_neg (by omega), if_neg hne]
    exact hempty (j - 1) (by omega)

/-- C5 witness: rolling over the chain `name_1` (content 10), `name_2`
(content 20) with active content 99 yields `name_1` = 99 (former active),
`name_2` = 10, `name_3` = 20, and no `name_4`. -/
theorem rollover_shifts_chain_witness :
    (rollover 2 demoDisk).chain 1 = some 99 ∧
    (rollover 2 demoDisk).chain 2 = some 10 ∧
    (rollover 2 demoDisk).chain 3 = some 20 ∧
    (rollover 2 demoDisk).chain 4 = none ∧
    (rollover 2 demoDisk).active = none := by
  have h := rollover_shifts_chain 2 2 (fun j => 10 * j) 99 demoDisk rfl
    (by intro j h1 h2
        interval_cases j <;> rfl)
    (by intro j hj
        have h1 : j ≠ 1 := by omega
        have h2 : j ≠ 2 := by omega
        simp [demoDisk, demoChain, h1, h2])
    (by omega)
  exact ⟨h.2.1, h.2.2.1 1 (by omega) (by omega),
    h.2.2.1 2 (by omega) (by omega), h.2.2.2 4 (by omega), h.1⟩

end WinService
